import Mathlib

/-!
Verification development for the balance-sheet tool in Bilanco-tablosu.py.

The Python source is shallowly embedded: monetary amounts (Python floats
carrying exact user-entered decimals) are modelled as rationals, spreadsheet
cells as an inductive sum of empty / string / numeric, and Python dicts as
association lists with last-assignment-wins lookup. Wall-clock timestamps,
window/GUI glue and the Mongo/openpyxl I/O calls are outside the model; every
function below mirrors a named function of the source.
-/

set_option autoImplicit false
set_option maxRecDepth 100000

/-- A spreadsheet cell value as handed over by the reader with data_only=True:
either an empty cell (Python None), a string, or a number. -/
inductive Cell where
  | cNone : Cell
  | cStr : String → Cell
  | cNum : ℚ → Cell
deriving DecidableEq

abbrev Row := List Cell

/-! Structural character-list implementations of the string primitives the
source uses (strip, lower, startswith, split, endswith). The library
versions operate on byte positions through well-founded recursion; these
definitions compute the same functions by structural recursion so that
every closed evaluation below reduces inside the kernel. -/

/-- Python str.strip() on the character list: drop leading and trailing
whitespace. -/
def pyStripChars (l : List Char) : List Char :=
  ((l.dropWhile Char.isWhitespace).reverse.dropWhile Char.isWhitespace).reverse

/-- Python str.strip(). -/
def pyStrip (s : String) : String :=
  ⟨pyStripChars s.data⟩

/-- ASCII lowercasing, the effect of str.lower() on the ASCII header words
this program compares against. -/
def lowerAscii (s : String) : String :=
  ⟨s.data.map Char.toLower⟩

/-- Python s.endswith(suf). -/
def strEnds (s suf : String) : Bool :=
  s.data.reverse.take suf.data.length = suf.data.reverse

/-- Python s.startswith(p). -/
def strStarts (s p : String) : Bool :=
  s.data.take p.data.length = p.data

/-- Python s[n:] on character counts. -/
def strDrop (s : String) (n : Nat) : String :=
  ⟨s.data.drop n⟩

/-- Python s.split(sep) for a one-character separator: empty parts are
kept, and the empty string yields one empty part. -/
def splitOnChar (sep : Char) : List Char → List (List Char)
  | [] => [[]]
  | c :: t =>
    let r := splitOnChar sep t
    if c = sep then [] :: r
    else
      match r with
      | [] => [[c]]
      | h :: rt => (c :: h) :: rt

/-- Join tokens with single spaces, the effect of " ".join(...). -/
def intercalateSpace : List (List Char) → List Char
  | [] => []
  | [t] => t
  | t :: rest => t ++ ' ' :: intercalateSpace rest

/-- Python dict lookup for a dict built by repeated assignment: the last
assignment to a key wins. -/
def dget {α : Type} (m : List (String × α)) (k : String) : Option α :=
  m.foldl (fun acc p => if p.1 = k then some p.2 else acc) none

/-- Python dict assignment d[k] = v, observed only through dget lookups
(last-wins), so modelled by appending the new binding. -/
def dput {α : Type} (m : List (String × α)) (k : String) (v : α) : List (String × α) :=
  m ++ [(k, v)]

/-- Lookup with a default, mirroring d.get(key, 0). -/
def dgetD (m : List (String × ℚ)) (k : String) (v0 : ℚ) : ℚ :=
  (dget m k).getD v0

/-- One-based cell access row[i-1] if len(row) >= i else None; rows handed to
the loop are padded with None cells up to the sheet width, which coincides
with returning an empty cell for any index beyond the list. -/
def getCell (row : Row) (i : Nat) : Cell :=
  row.getD (i - 1) Cell.cNone

/-- The sheet width ws.max_column: the widest row of the sheet. -/
def maxCol (rows : List Row) : Nat :=
  rows.foldr (fun r m => max r.length m) 0

/-- Decimal rendering of a float value, used only where the source calls
str() on a numeric cell. A Python float prints as a nonempty string of
digits, sign, dot or exponent, never as whitespace and never as one of the
alphabetic header words; this rendering keeps exactly those properties. -/
def pyStrOfNum (q : ℚ) : String :=
  if q.den = 1 then toString q.num ++ ".0"
  else toString q.num ++ "/" ++ toString q.den

/-- Python str() of a non-empty cell value; str(None) is never reached by the
source (every call site guards on None first). -/
def pyStr (c : Cell) : String :=
  match c with
  | Cell.cNone => "None"
  | Cell.cStr s => s
  | Cell.cNum q => pyStrOfNum q

/-- The recurring test val is None or str(val).strip() == "". For a float the
test is always False since str() of a float is never blank. -/
def isBlankCell (c : Cell) : Bool :=
  match c with
  | Cell.cNone => true
  | Cell.cStr s => pyStrip s = ""
  | Cell.cNum _ => false

/-- Digit-string value, helper for the float() model. -/
def digitsVal (l : List Char) : ℚ :=
  l.foldl (fun n c => 10 * n + ((c.toNat - 48 : Nat) : ℚ)) 0

/-- Python float(s) on a string: optional surrounding whitespace and sign,
digits with at most one decimal point. Exponent, infinity, nan and
underscore forms are not modelled; no data produced by this program uses
them, and unparsed strings coerce to the same 0 either way at every call
site that matters below. -/
def pyFloat (s : String) : Option ℚ :=
  let t := pyStrip s
  let sb : ℚ × String :=
    if strStarts t "-" then (-1, strDrop t 1)
    else if strStarts t "+" then (1, strDrop t 1)
    else (1, t)
  match splitOnChar '.' sb.2.data with
  | [ip] =>
    if ip ≠ [] ∧ ip.all Char.isDigit then some (sb.1 * digitsVal ip)
    else none
  | [ip, fp] =>
    if (ip ≠ [] ∨ fp ≠ []) ∧ ip.all Char.isDigit ∧ fp.all Char.isDigit then
      some (sb.1 * (digitsVal ip + digitsVal fp / (10 : ℚ) ^ fp.length))
    else none
  | _ => none

/-- Python float(v) over a cell value: a float is itself, a string is parsed
or fails, an empty cell fails. -/
def pyFloatOfCell (c : Cell) : Option ℚ :=
  match c with
  | Cell.cNone => none
  | Cell.cStr s => pyFloat s
  | Cell.cNum q => q

/-- The matched-row amount coercion float(val) if val is not None and
str(val).strip() != "" else 0.0, with the whole assignment wrapped in
try/except falling back to 0.0. -/
def coerceVal (c : Cell) : ℚ :=
  match c with
  | Cell.cNone => 0
  | Cell.cNum q => q
  | Cell.cStr s => if pyStrip s = "" then 0 else (pyFloat s).getD 0

/-- Per-character effect of lower() then NFKD decomposition then dropping
combining marks, for the characters this program's literals use. ASCII
letters lowercase in place; the composed Turkish letters decompose to their
base letter; the dotless i has no decomposition and, being outside
[a-z0-9 ], is replaced by a space by the allowed-character filter, as is
every other unhandled character (punctuation, dashes, slashes). -/
def normCharList (c : Char) : List Char :=
  if 'A' ≤ c ∧ c ≤ 'Z' then [c.toLower]
  else if ('a' ≤ c ∧ c ≤ 'z') ∨ ('0' ≤ c ∧ c ≤ '9') ∨ c = ' ' then [c]
  else if c = 'ç' ∨ c = 'Ç' then ['c']
  else if c = 'ğ' ∨ c = 'Ğ' then ['g']
  else if c = 'ö' ∨ c = 'Ö' then ['o']
  else if c = 'ü' ∨ c = 'Ü' then ['u']
  else if c = 'ş' ∨ c = 'Ş' then ['s']
  else if c = 'İ' then ['i']
  else [' ']

/-- The _normalize helper of load_from_excel: strip, lowercase, NFKD
decomposition dropping combining marks, replace anything outside [a-z0-9 ]
with a space, collapse whitespace runs. -/
def pynormalize (s : String) : String :=
  let mapped := (pyStripChars s.data).foldr (fun c acc => normCharList c ++ acc) []
  ⟨intercalateSpace ((splitOnChar ' ' mapped).filter (fun t => t ≠ []))⟩

/-! ### Schema Registry: SECTION_FIELDS -/

/-- SECTION_FIELDS AKTIF, Dönen Varlıklar. -/
def donenFields : List (String × String) := [
  ("Nakit ve Nakit Benzerleri", "nakitVeNakitBenzerleri"),
  ("Gayrimenkul Projeleri Kapsamında Açılan Nakit Hesapları", "gayrimenkulProjeleriNakitHesaplari"),
  ("Finansal Yatırımlar", "finansalYatirimlar"),
  ("Teminata Verilen Finansal Varlıklar", "teminataVerilenFinansalVarliklar"),
  ("Ticari Alacaklar", "ticariAlacaklarDonen"),
  ("Finans Sektörü Faaliyetlerinden Alacaklar", "finansSektoruFaaliyetlerindenAlacaklarDonen"),
  ("Türkiye Cumhuriyet Merkez Bankası Hesabı", "tcmbHesabi"),
  ("Diğer Alacaklar", "digerAlacaklarDonen"),
  ("Müşteri Sözleşmelerinden Doğan Varlıklar", "musteriSozlesmelerindenDoganVarliklarDonen"),
  ("İmtiyaz Sözleşmelerine İlişkin Finansal Varlıklar", "imtiyazSozlesmelerineIliskinFinansalVarliklarDonen"),
  ("Türev Araçlar", "turevAraclarDonen"),
  ("Stoklar", "stoklar"),
  ("Proje Halindeki Stoklar", "projeHalindekiStoklar"),
  ("Canlı Varlıklar", "canliVarliklarDonen"),
  ("Peşin Ödenmiş Giderler", "pesinOdenmisGiderlerDonen"),
  ("Ertelenmiş Sigortacılık Üretim Giderleri", "ertelenmisSigortacilikUretimGiderleri"),
  ("Cari Dönem Vergisiyle İlgili Varlıklar", "cariDonemVergisiyleIlgiliVarliklarDonen"),
  ("Nakdi Dışı Serbest Kullanılabilir Teminatlar", "nakdiDisiSerbestKullanilabilirTeminatlarDonen"),
  ("Diğer Dönen Varlıklar", "digerDonenVarliklar"),
  ("Satış Amacıyla Elde Tutulan Duran Varlıklar", "satisAmaciylaEldeTutulanDuranVarliklar"),
  ("Ortaklara Dağıtılmak Üzere Elde Tutulan Duran Varlıklar", "ortaklaraDagitilmakUzereEldeTutulanDuranVarliklar"),
  ("Toplam Dönen Varlıklar", "toplamDonenVarliklar_dummy")]

/-- SECTION_FIELDS AKTIF, Duran Varlıklar. -/
def duranFields : List (String × String) := [
  ("Finansal Yatırımlar", "finansalYatirimlarDuran"),
  ("İştirakler, İş Ortaklıkları ve Bağlı Ortaklıklardaki Yatırımlar", "istirakIsOrtaklikBagliOrtaklikYatirimlari"),
  ("Ticari Alacaklar", "ticariAlacaklar"),
  ("Finans Sektörü Faaliyetlerinden Alacaklar", "finansSektoruFaaliyetlerindenAlacaklarDuran"),
  ("Diğer Alacaklar", "digerAlacaklarDuran"),
  ("Müşteri Sözleşmelerinden Doğan Varlıklar", "musteriSozlesmelerindenDoganVarliklarDuran"),
  ("İmtiyaz Sözleşmelerine İlişkin Finansal Varlıklar", "imtiyazSozlesmelerineIliskinFinansalVarliklarDuran"),
  ("Türev Araçlar", "turevAraclarDuran"),
  ("Stoklar", "stoklarDuran"),
  ("Özkaynak Yöntemiyle Değerlenen Yatırımlar", "ozkaynakYontemiyleDegerlenenYatirimlar"),
  ("Canlı Varlıklar", "canliVarliklarDuran"),
  ("Yatırım Amaçlı Gayrimenkuller", "yatirimAmacliGayrimenkuller"),
  ("Proje Halindeki Yatırım Amaçlı Gayrimenkuller", "projeHalindekiYatirimAmacliGayrimenkuller"),
  ("Maddi Duran Varlıklar", "maddiDuranVarliklar"),
  ("Kullanım Hakkı Varlıkları", "kullanimHakkiVarliklari"),
  ("Maddi Olmayan Duran Varlıklar", "maddiOlmayanDuranVarliklar"),
  ("Peşin Ödenmiş Giderler", "pesinOdenmisGiderlerDuran"),
  ("Ertelenmiş Vergi Varlığı", "ertelenmisVergiVarligiDuran"),
  ("Cari Dönem Vergisiyle İlgili Duran Varlıklar", "cariDonemVergisiyleIlgiliDuranVarliklar"),
  ("Nakdi Dışı Serbest Kullanılabilir Teminatlar", "nakdiDisiSerbestKullanilabilirTeminatlarDuran"),
  ("Diğer Duran Varlıklar", "digerDuranVarliklar"),
  ("Toplam Duran Varlıklar", "toplamDuranVarliklar_dummy")]

/-- SECTION_FIELDS PASIF, Kısa Vadeli Yükümlülükler. -/
def kvFields : List (String × String) := [
  ("Finansal Borçlar", "finansalBorclarKV"),
  ("Diğer Finansal Yükümlülükler", "digerFinansalYukumluluklerKV"),
  ("Ticari Borçlar", "ticariBorclarKV"),
  ("Finans Sektörü Faaliyetlerinden Borçlar", "finansSektoruFaaliyetlerindenBorclarKV"),
  ("Çalışanlara Sağlanan Faydalar Kapsamında Borçlar", "calisanlaraSaglananFaydalarBorclarKV"),
  ("Diğer Borçlar", "digerBorclarKV"),
  ("Müşteri Sözleşmelerinden Doğan Yükümlülükler", "musteriSozlesmelerindenDoganYukumluluklerKV"),
  ("Özkaynak Yöntemiyle Değerlenen Yatırımlardan Yükümlülükler", "ozkaynakYontemiyleDegerlenenYatirimlardanYukumluluklerKV"),
  ("Türev Araçlar", "turevAraclarKV"),
  ("Devlet Teşvik ve Yardımları", "devletTesvikYardimKV"),
  ("Ertelenmiş Gelirler", "ertelenmisGelirlerKV"),
  ("Dönem Karı Vergi Yükümlülüğü", "donemKariVergiYukumluluguKV"),
  ("Kısa Vadeli Karşılıklar", "kisaVadeliKarsiliklar"),
  ("Diğer Kısa Vadeli Yükümlülükler", "digerKisaVadeliYukumlulukler"),
  ("Satış Amaçlı Sınıflandırılan Varlık Gruplarına İlişkin Yükümlülükler", "satisAmacliSiniflandirilanVarlikGruplarinaIliskinYukumlulukler"),
  ("Ortaklara Dağıtılmak Üzere Elde Tutulan Varlık Gruplarına İlişkin Yükümlülükler", "ortaklaraDagitilmakUzereEldeTutulanVarlikGruplarinaIliskinYukumlulukler"),
  ("Toplam Kısa Vadeli Yükümlülükler", "toplamKVY_dummy")]

/-- SECTION_FIELDS PASIF, Uzun Vadeli Yükümlülükler. -/
def uvFields : List (String × String) := [
  ("Finansal Borçlar", "finansalBorclarUV"),
  ("Diğer Finansal Yükümlülükler", "digerFinansalYukumluluklerUV"),
  ("Ticari Borçlar", "ticariBorclarUV"),
  ("Finans Sektörü Faaliyetlerinden Borçlar", "finansSektoruFaaliyetlerindenBorclarUV"),
  ("Çalışanlara Sağlanan Faydalar Kapsamında Borçlar", "calisanlaraSaglananFaydalarBorclarUV"),
  ("Diğer Borçlar", "digerBorclarUV"),
  ("Müşteri Sözleşmelerinden Doğan Yükümlülükler", "musteriSozlesmelerindenDoganYukumluluklerUV"),
  ("Özkaynak Yöntemiyle Değerlenen Yatırımlardan Yükümlülükler", "ozkaynakYontemiyleDegerlenenYatirimlardanYukumluluklerUV"),
  ("Türev Araçlar", "turevAraclarUV"),
  ("Devlet Teşvik ve Yardımları", "devletTesvikYardimUV"),
  ("Ertelenmiş Gelirler", "ertelenmisGelirlerUV"),
  ("Cari Dönem Vergisiyle İlgili Borçlar", "cariDonemVergisiyleIlgiliBorclarUV"),
  ("Ertelenmiş Vergi Yükümlülüğü", "ertelenmisVergiYukumlulugu"),
  ("Diğer Uzun Vadeli Yükümlülükler", "digerUzunVadeliYukumlulukler"),
  ("Toplam Uzun Vadeli Yükümlülükler", "toplamUVY_dummy")]

/-- SECTION_FIELDS PASIF, Özkaynaklar. -/
def ozFields : List (String × String) := [
  ("Ana Ortaklığa Ait Özkaynaklar", "anaOrtakligaAitOzkaynaklar"),
  ("Ödenmiş Sermaye", "odenmisSermaye"),
  ("Sermaye Düzeltme Farkları", "sermayeDuzeltmeFarklari"),
  ("Birleşme Dengeleştirme Hesabı", "birlesmeDengeletirmeHesabi"),
  ("Pay Sahiplerinin İlave Sermaye Katkıları", "paySahipleriIlaveSermayeKatkilari"),
  ("Sermaye Avansı", "sermayeAvansi"),
  ("Geri Alınmış Paylar (-)", "geriAlinmisPaylar"),
  ("Karşılıklı İştirak Sermaye Düzeltmesi (-)", "karsilikliIstirakSermayeDuzeltmesi"),
  ("Paylara İlişkin Primler (iskontolar)", "paylaraIliskinPrimlerIskontolar"),
  ("Ortak Kontrole Tabi Teşebbüs veya İşletmeleri İçeren Birleşmelerin Etkisi", "ortakKontroleTabiBirlesmeEtkisi"),
  ("Pay Bazlı Ödemeler (-)", "payBazliOdemeler"),
  ("Kar veya Zararda Yeniden Sınıflandırılmayacak Birikmiş Diğer Kapsamlı Gelirler (Giderler)", "yenidenSiniflandirilmayacakBirikmisDigerKapsamliGelirGider"),
  ("Kar veya Zararda Yeniden Sınıflandırılacak Birikmiş Diğer Kapsamlı Gelirler (Giderler)", "yenidenSiniflandirilacakBirikmisDigerKapsamliGelirGider"),
  ("Kardan Ayrılan Kısıtlanmış Yedekler", "kardanAyrilanKisitlanmisYedekler"),
  ("Diğer Yedekler", "digerYedekler"),
  ("Geçmiş Yıllar Kar/Zararları", "gecmisYillarKarZarari"),
  ("Dönem Net Karı", "donemKariZarari"),
  ("Azınlık Payları", "kontrolGucuOlmayanPaylar"),
  ("Toplam Özkaynaklar", "ozkaynaklarToplam_dummy"),
  ("Toplam Kaynaklar", "toplamKaynaklar_dummy"),
  ("Hedge Dahil Net Yabancı Para Pozisyonu", "hedgeDahilNetYabanciParaPozisyonu")]

/-- SECTION_FIELDS AKTIF in its insertion order. -/
def aktifSections : List (String × List (String × String)) :=
  [("Dönen Varlıklar", donenFields), ("Duran Varlıklar", duranFields)]

/-- SECTION_FIELDS PASIF in its insertion order. -/
def pasifSections : List (String × List (String × String)) :=
  [("Kısa Vadeli Yükümlülükler", kvFields),
   ("Uzun Vadeli Yükümlülükler", uvFields),
   ("Özkaynaklar", ozFields)]

/-- The AKTIF then PASIF iteration order used throughout the source. -/
def allSections : List (String × List (String × String)) :=
  aktifSections ++ pasifSections

/-- Non-subtotal keys of a group, mirroring the if not k.endswith("_dummy")
comprehension filter. -/
def groupKeys (fields : List (String × String)) : List String :=
  fields.filterMap (fun lk => if strEnds lk.2 "_dummy" then none else some lk.2)

/-- DONEN_KEYS. -/
def DONEN_KEYS : List String := groupKeys donenFields

/-- DURAN_KEYS. -/
def DURAN_KEYS : List String := groupKeys duranFields

/-- KV_KEYS. -/
def KV_KEYS : List String := groupKeys kvFields

/-- UV_KEYS. -/
def UV_KEYS : List String := groupKeys uvFields

/-- OZ_KEYS. -/
def OZ_KEYS : List String := groupKeys ozFields

/-! ### The flat entry mapping and the Aggregation Engine -/

/-- The flat entry mapping d. In every mapping this program constructs
(collect_bilanco_data, gui_collect_data, load_from_excel) the values are
floats except at the two reserved string keys isletmeAdi and bilancoTarihi,
which are held here as dedicated string fields; items keeps the insertion
order of the numeric entries, which validate's iteration observes. -/
structure BilancoData where
  items : List (String × ℚ)
  isletmeAdi : String
  bilancoTarihi : String

/-- sum_donen_varliklar: total of DONEN_KEYS entries; missing keys and the
falsy-to-zero coercion (d.get(key, 0) or 0) both contribute 0. -/
def sum_donen_varliklar (d : BilancoData) : ℚ :=
  DONEN_KEYS.foldl (fun t k => t + dgetD d.items k 0) 0

/-- sum_duran_varliklar: total of DURAN_KEYS entries minus the accumulated
depreciation entry birikmiAmort. -/
def sum_duran_varliklar (d : BilancoData) : ℚ :=
  DURAN_KEYS.foldl (fun t k => t + dgetD d.items k 0) 0 - dgetD d.items "birikmiAmort" 0

/-- sum_kv_yabanci_kaynaklar. -/
def sum_kv_yabanci_kaynaklar (d : BilancoData) : ℚ :=
  KV_KEYS.foldl (fun t k => t + dgetD d.items k 0) 0

/-- sum_uv_yabanci_kaynaklar. -/
def sum_uv_yabanci_kaynaklar (d : BilancoData) : ℚ :=
  UV_KEYS.foldl (fun t k => t + dgetD d.items k 0) 0

/-- sum_oz_kaynaklar. -/
def sum_oz_kaynaklar (d : BilancoData) : ℚ :=
  OZ_KEYS.foldl (fun t k => t + dgetD d.items k 0) 0

/-! ### Validation Engine -/

/-- A validation finding. Each constructor stands for one check of validate,
carrying the data interpolated into its message; tip gives the severity tag
of the dict literal the source appends. -/
inductive Bulgu where
  | dengesizlik : ℚ → ℚ → Bulgu
  | adBos : Bulgu
  | negatif : String → ℚ → Bulgu
  | likidite : ℚ → Bulgu
  | ozNegatif : Bulgu
  | bosBilanco : Bulgu
deriving DecidableEq

/-- The tip field of a finding dict: kritik for the balance mismatch and the
negative equity checks, uyari for the rest. -/
def Bulgu.tip : Bulgu → String
  | Bulgu.dengesizlik _ _ => "kritik"
  | Bulgu.adBos => "uyari"
  | Bulgu.negatif _ _ => "uyari"
  | Bulgu.likidite _ => "uyari"
  | Bulgu.ozNegatif => "kritik"
  | Bulgu.bosBilanco => "uyari"

/-- validate: the six checks in source order. The negativity scan iterates
the entries in insertion order, skipping the two string keys and
birikmiAmort by name; entry values being floats, the float(value) coercion
never fails on them. -/
def validate (d : BilancoData) : List Bulgu :=
  let aktif := sum_donen_varliklar d + sum_duran_varliklar d
  let pasif := sum_kv_yabanci_kaynaklar d + sum_uv_yabanci_kaynaklar d + sum_oz_kaynaklar d
  let e1 : List Bulgu :=
    if |aktif - pasif| > 1 / 100 then [Bulgu.dengesizlik aktif pasif] else []
  let e2 : List Bulgu := if pyStrip d.isletmeAdi = "" then [Bulgu.adBos] else []
  let e3 : List Bulgu := d.items.filterMap (fun kv =>
    if kv.1 = "isletmeAdi" ∨ kv.1 = "bilancoTarihi" ∨ kv.1 = "birikmiAmort" then none
    else if kv.2 < 0 then some (Bulgu.negatif kv.1 kv.2) else none)
  let kv := sum_kv_yabanci_kaynaklar d
  let dv := sum_donen_varliklar d
  let oran := dv / (if kv ≠ 0 then kv else 1)
  let e4 : List Bulgu := if oran < 1 then [Bulgu.likidite oran] else []
  let e5 : List Bulgu := if sum_oz_kaynaklar d < 0 then [Bulgu.ozNegatif] else []
  let e6 : List Bulgu := if aktif = 0 then [Bulgu.bosBilanco] else []
  e1 ++ e2 ++ e3 ++ e4 ++ e5 ++ e6

/-! ### Document Builder -/

/-- The computed portion of the document build_mongo_like_document assembles:
section totals, ratios and the validation block. The verbatim echo of each
entry value, the wall-clock kayitTarihi and the storage-assigned id are
identity/I-O data carried alongside and are not modelled. The source
formats the three ratios to two decimals for serialization; the underlying
numeric values are kept here. -/
structure MongoDoc where
  donenToplam : ℚ
  duranToplam : ℚ
  aktifToplam : ℚ
  kvToplam : ℚ
  uvToplam : ℚ
  ozToplam : ℚ
  pasifToplam : ℚ
  likiditeOrani : ℚ
  ozkaynaklarOrani : ℚ
  borcOrani : ℚ
  durumu : String
  hatalar : List Bulgu

/-- build_mongo_like_document: totals, ratios with their zero-divisor guards,
and the dogrulama block whose durumu is basarili exactly on an empty
findings list. -/
def build_mongo_like_document (d : BilancoData) (errors : List Bulgu) : MongoDoc :=
  let donen := sum_donen_varliklar d
  let duran := sum_duran_varliklar d
  let aktif_toplam := donen + duran
  let kv := sum_kv_yabanci_kaynaklar d
  let uv := sum_uv_yabanci_kaynaklar d
  let oz := sum_oz_kaynaklar d
  { donenToplam := donen
    duranToplam := duran
    aktifToplam := aktif_toplam
    kvToplam := kv
    uvToplam := uv
    ozToplam := oz
    pasifToplam := kv + uv + oz
    likiditeOrani := donen / (if kv ≠ 0 then kv else 1)
    ozkaynaklarOrani := if aktif_toplam ≠ 0 then oz / aktif_toplam * 100 else 0
    borcOrani := if aktif_toplam ≠ 0 then (kv + uv) / aktif_toplam * 100 else 0
    durumu := if errors.length = 0 then "basarili" else "uyarilarla"
    hatalar := errors }

/-! ### Spreadsheet writer -/

/-- One data row of the primary sheet, as appended by save_to_excel. -/
structure XRow where
  side : String
  grp : String
  label : String
  key : String
  val : ℚ
deriving DecidableEq

/-- Concatenation of per-element lists, used to spell out the nested
for-loops of the source. -/
def catMap {α β : Type} (f : α → List β) : List α → List β
  | [] => []
  | a :: t => f a ++ catMap f t

/-- build_excel_rows_from_data: one row per non-subtotal line item, AKTIF
groups then PASIF groups in schema order, with the value
float(d.get(key, 0) or 0) falling back to 0. -/
def build_excel_rows_from_data (d : BilancoData) : List XRow :=
  catMap (fun sg =>
      catMap (fun g =>
          g.2.filterMap (fun lk =>
            if strEnds lk.2 "_dummy" then none
            else some ⟨sg.1, g.1, lk.1, lk.2, dgetD d.items lk.2 0⟩))
        sg.2)
    [("AKTIF", aktifSections), ("PASIF", pasifSections)]

/-- The header row ws.append(["Taraf", "Grup", "Etiket", "Anahtar", "Tutar"]). -/
def excelHeaderRow : Row :=
  [Cell.cStr "Taraf", Cell.cStr "Grup", Cell.cStr "Etiket", Cell.cStr "Anahtar", Cell.cStr "Tutar"]

/-- A written data row as openpyxl will read it back. -/
def rowOfXRow (r : XRow) : Row :=
  [Cell.cStr r.side, Cell.cStr r.grp, Cell.cStr r.label, Cell.cStr r.key, Cell.cNum r.val]

/-- The primary sheet save_to_excel writes: header row then the data rows. The
Bilgi meta sheet holds only the two entity strings and is not part of the
row-reconciliation model. -/
def save_to_excel_rows (d : BilancoData) : List Row :=
  excelHeaderRow :: (build_excel_rows_from_data d).map rowOfXRow

/-! ### Spreadsheet Reconciler: load_from_excel -/

/-- The global normalized label → key dict built from SECTION_FIELDS,
skipping subtotal keys; a label reused across groups keeps its last
(iteration-order) binding, since dict assignment overwrites. -/
def labelToKey : List (String × String) :=
  allSections.foldl (fun acc g =>
      g.2.foldl (fun a lk =>
          if strEnds lk.2 "_dummy" then a
          else dput a (pynormalize lk.1) lk.2)
        acc)
    []

/-- The group-scoped normalized label → key dicts, keyed by normalized group
name. The source fills them in the same single pass as labelToKey; the five
normalized group names are pairwise distinct (groupNamesNorm_nodup below),
so building each group's dict from its own field list is the same dict. -/
def groupLabelMaps : List (String × List (String × String)) :=
  allSections.map (fun g =>
    (pynormalize g.1,
     g.2.foldl (fun m lk =>
         if strEnds lk.2 "_dummy" then m
         else dput m (pynormalize lk.1) lk.2)
       []))

/-- The set of normalized group names used to recognise group-header rows. -/
def groupNamesNorm : List String :=
  allSections.map (fun g => pynormalize g.1)

/-- All display labels of both sides, subtotal rows included, exactly the
list comprehension the alias helper checks targets against. -/
def allLabels : List String :=
  (catMap (fun g => g.2) aktifSections ++ catMap (fun g => g.2) pasifSections).map
    (fun lk => lk.1)

/-- One _alias(src, target_label) call: registered only when the target is a
known display label and resolves through labelToKey. -/
def aliasAdd (m : List (String × String)) (src target : String) : List (String × String) :=
  if target ∈ allLabels then
    match dget labelToKey (pynormalize target) with
    | some k => dput m (pynormalize src) k
    | none => m
  else m

/-- The eleven alias registrations, in source order. -/
def aliasPairs : List (String × String) := [
  ("Donem Kari Vergi Yukumlulugu", "Dönem Karı Vergi Yükümlülüğü"),
  ("Donem Kar Vergi Yukumlulugu", "Dönem Karı Vergi Yükümlülüğü"),
  ("Cari Donem Vergisiyle ilgili Varliklar", "Cari Dönem Vergisiyle İlgili Varlıklar"),
  ("Cari Donem Vergisiyle ilgili Borclar", "Cari Dönem Vergisiyle İlgili Borçlar"),
  ("Ozkaynak Yontemiyle Degerlenen Yatirimlardan Yukumlulukler", "Özkaynak Yöntemiyle Değerlenen Yatırımlardan Yükümlülükler"),
  ("Ozkaynak Yontemiyle Degerlenen Yatirimlar", "Özkaynak Yöntemiyle Değerlenen Yatırımlar"),
  ("Pesin Odenmis Giderler", "Peşin Ödenmiş Giderler"),
  ("Ertelenmis Vergi Varligi", "Ertelenmiş Vergi Varlığı"),
  ("Ertelenmis Gelirler", "Ertelenmiş Gelirler"),
  ("Turkiye Cumhuriyeti Merkez Bankasi Hesabi", "Türkiye Cumhuriyet Merkez Bankası Hesabı"),
  ("Türkiye Cumhuriyeti Merkez Bankası Hesabı", "Türkiye Cumhuriyet Merkez Bankası Hesabı")]

/-- The alias (normalized) → canonical key dict. -/
def aliasToKey : List (String × String) :=
  aliasPairs.foldl (fun m p => aliasAdd m p.1 p.2) []

/-- The shared resolution step: prefer the current group's scoped dict when
the normalized label is a member there, else the global dict (lines
517-520 and 551-554 of the source). -/
def resolveLabel (grp : Option String) (n : String) : Option String :=
  match grp with
  | none => dget labelToKey n
  | some g =>
    match dget ((dget groupLabelMaps g).getD []) n with
    | some k => some k
    | none => dget labelToKey n

/-- The scanning state: the accumulated entry dict and the current detected
group context. -/
abbrev LoadState := List (String × ℚ) × Option String

/-- The _pick_label_value row inference: among the non-blank cells, the
amount is the last cell float() accepts and the label the first string
cell. -/
def pickLabelValue (row : Row) : Cell × Cell :=
  let nonEmpty := row.filter (fun c => !(isBlankCell c))
  let value : Cell :=
    match nonEmpty.reverse.findSome? pyFloatOfCell with
    | some q => Cell.cNum q
    | none => Cell.cNone
  let lab : Cell :=
    match nonEmpty.find? (fun c =>
        match c with
        | Cell.cStr s => pyStrip s != ""
        | _ => false) with
    | some c => c
    | none => Cell.cNone
  (lab, value)

/-- One iteration of the Simple two-column loop (lines 503-531): group-header
rows update the context, resolved labels store the coerced amount, and in
strict mode an unresolved label stores nothing. -/
def simpleStep (st : LoadState) (row : Row) : LoadState :=
  if row = [] then st
  else
    let label := getCell row 1
    let vl := getCell row 2
    if label = Cell.cNone then st
    else
      let norm := pynormalize (pyStr label)
      if norm ∈ groupNamesNorm ∧ isBlankCell vl = true then (st.1, some norm)
      else
        (resolveLabel st.2 norm).elim st
          (fun k => (dput st.1 k (coerceVal vl), st.2))

/-- One iteration of the Detailed-format loop (lines 532-569): the configured
key/value/label columns, the group-header update, the _pick_label_value
fallback for key-less rows with blank amounts, label resolution with alias
fallback in strict mode, and the final d[str(key)] assignment. -/
def detailedStep (kc vc lc : Nat) (st : LoadState) (row : Row) : LoadState :=
  if row = [] then st
  else
    let key0 := getCell row kc
    let val0 := getCell row vc
    let label0 := getCell row lc
    if label0 ≠ Cell.cNone ∧ pynormalize (pyStr label0) ∈ groupNamesNorm ∧
        isBlankCell val0 = true ∧ isBlankCell key0 = true then
      (st.1, some (pynormalize (pyStr label0)))
    else
      let lv :=
        if key0 = Cell.cNone ∧ (label0 = Cell.cNone ∨ isBlankCell val0 = true) then
          pickLabelValue row
        else (label0, val0)
      let keyS : Option String :=
        match key0 with
        | Cell.cNone =>
          match lv.1 with
          | Cell.cNone => none
          | lbl =>
            ((resolveLabel st.2 (pynormalize (pyStr lbl))).orElse
              (fun _ => dget aliasToKey (pynormalize (pyStr lbl))))
        | c => some (pyStr c)
      keyS.elim st (fun k => (dput st.1 k (coerceVal lv.2), st.2))

/-- The header-scan view of a row: str(c.value).strip().lower() for non-empty
cells, "" for empty ones. -/
def rowHeaderVals (r : Row) : List String :=
  r.map (fun c =>
    match c with
    | Cell.cNone => ""
    | c => lowerAscii (pyStrip (pyStr c)))

/-- The header-detection loop over row indices i, i+1, ... with the given
iteration budget: the first nonempty row containing both anahtar and tutar
yields the header row index and the detected one-based key/value/label
columns (label defaulting to 3). -/
def headerScanFuel (rows : List Row) : Nat → Nat → Option (Nat × Nat × Nat × Nat)
  | 0, _ => none
  | n + 1, i =>
    let rv := rowHeaderVals (rows.getD (i - 1) [])
    if rv.any (fun x => x ≠ "") then
      if "anahtar" ∈ rv ∧ "tutar" ∈ rv then
        some (i, rv.findIdx (fun x => x = "anahtar") + 1,
              rv.findIdx (fun x => x = "tutar") + 1,
              if "etiket" ∈ rv then rv.findIdx (fun x => x = "etiket") + 1 else 3)
      else headerScanFuel rows n (i + 1)
    else headerScanFuel rows n (i + 1)

/-- The detection loop for r_idx in range(1, min(10, ws.max_row) + 1). -/
def detectHeaderScan (rows : List Row) : Option (Nat × Nat × Nat × Nat) :=
  headerScanFuel rows (min 10 rows.length) 1

/-- The column configuration the Detailed path ends up with. -/
structure Detect where
  hdr : Nat
  kc : Nat
  vc : Nat
  lc : Nat
deriving DecidableEq

/-- The full more-than-2-columns detection (lines 397-414). The detected
header row index is kept, but the trailing if not is_simple_format block is
always entered on this branch, so the detected key/value/label columns are
unconditionally overwritten by the fixed guesses key=4, value=5, label=3. -/
def detectDetailed (rows : List Row) : Detect :=
  match detectHeaderScan rows with
  | some (h, _kc, _vc, _lc) => ⟨h, 4, 5, 3⟩
  | none => ⟨1, 4, 5, 3⟩

/-- The row-reconciliation portion of load_from_excel over the primary sheet:
Simple two-column sheets scan rows 2.. with the label/value loop, wider
sheets run header detection and scan the rows after the header row with the
detailed loop. The Bilgi meta sheet adds only the two entity strings and is
outside this model. -/
def load_from_excel_rows (rows : List Row) : List (String × ℚ) :=
  if maxCol rows ≤ 2 then
    ((rows.drop 1).foldl simpleStep ([], none)).1
  else
    ((rows.drop (detectDetailed rows).hdr).foldl
        (detailedStep (detectDetailed rows).kc (detectDetailed rows).vc (detectDetailed rows).lc)
        ([], none)).1

/-! ### Concrete inputs referenced by the theorems -/

/-- The balanced-sheet scenario entries kasa 1000, odenmisSermaye 1000, all
other keys absent, entity fields empty. -/
def kasaScenario : BilancoData :=
  ⟨[("kasa", 1000), ("odenmisSermaye", 1000)], "", ""⟩

/-- The negative-equity scenario entries odenmisSermaye -100, all other keys
absent, entity fields empty. -/
def negEquityScenario : BilancoData :=
  ⟨[("odenmisSermaye", -100)], "", ""⟩

/-- A three-column sheet whose header row puts the key column at 1 and the
amount column at 2 (not at the fixed guesses 4 and 5), followed by one data
row keyed odenmisSermaye with amount 7. -/
def shiftedHeaderSheet : List Row :=
  [[Cell.cStr "anahtar", Cell.cStr "tutar", Cell.cStr "etiket"],
   [Cell.cStr "odenmisSermaye", Cell.cNum 7, Cell.cStr "x"]]

/-- A Simple two-column sheet carrying the same label Diğer Borçlar once
under the short-term group header and once under the long-term group
header. -/
def digerBorclarSheet (v1 v2 : ℚ) : List Row :=
  [[Cell.cStr "Etiket", Cell.cStr "Tutar"],
   [Cell.cStr "Kısa Vadeli Yükümlülükler"],
   [Cell.cStr "Diğer Borçlar", Cell.cNum v1],
   [Cell.cStr "Uzun Vadeli Yükümlülükler"],
   [Cell.cStr "Diğer Borçlar", Cell.cNum v2]]

/-- A Simple two-column sheet carrying the label Diğer Borçlar once under
the Dönen Varlıklar group header and once under the Duran Varlıklar group
header: two different groups, neither of which defines that label, so both
rows fall back to the global label dict. -/
def donenDuranDigerSheet : List Row :=
  [[Cell.cStr "Etiket", Cell.cStr "Tutar"],
   [Cell.cStr "Dönen Varlıklar"],
   [Cell.cStr "Diğer Borçlar", Cell.cNum 11],
   [Cell.cStr "Duran Varlıklar"],
   [Cell.cStr "Diğer Borçlar", Cell.cNum 22]]

/-- The concatenated non-subtotal key lists, in writer order. -/
def allEntryKeys : List String :=
  DONEN_KEYS ++ DURAN_KEYS ++ KV_KEYS ++ UV_KEYS ++ OZ_KEYS

/-- Projection extracting the ratio of a liquidity finding. -/
def likOf : Bulgu → Option ℚ
  | Bulgu.likidite r => some r
  | _ => none

/-! ### Helper lemmas -/

theorem dget_append_single {α : Type} (m : List (String × α)) (a : String) (b : α)
    (k : String) :
    dget (m ++ [(a, b)]) k = if a = k then some b else dget m k := by
  unfold dget
  rw [List.foldl_append]
  rfl

theorem foldl_lookup_mem {α : Type} (l : List (String × α)) (k : String) (v : α) :
    ∀ acc : Option α,
      l.foldl (fun a p => if p.1 = k then some p.2 else a) acc = some v →
      (∃ p ∈ l, p.2 = v) ∨ acc = some v := by
  induction l with
  | nil => intro acc h; right; exact h
  | cons p t ih =>
    intro acc h
    rcases ih _ h with h1 | h2
    · left
      obtain ⟨q, hq, hv⟩ := h1
      exact ⟨q, List.mem_cons_of_mem _ hq, hv⟩
    · have h2' : (if p.1 = k then some p.2 else acc) = some v := h2
      by_cases hp : p.1 = k
      · rw [if_pos hp] at h2'
        left
        refine ⟨p, List.mem_cons_self _ _, ?_⟩
        injection h2'
      · rw [if_neg hp] at h2'
        right
        exact h2'

theorem dget_mem {α : Type} {l : List (String × α)} {k : String} {v : α}
    (h : dget l k = some v) : ∃ p ∈ l, p.2 = v := by
  rcases foldl_lookup_mem l k v none h with h1 | h2
  · exact h1
  · cases h2

/-- The five normalized group names are pairwise distinct, so the one-pass
construction of the group-scoped dicts builds each group's dict from its own
field list. -/
theorem groupNamesNorm_nodup : groupNamesNorm.Nodup := by decide

theorem dget_keysMap (keys : List String) (f : String → ℚ) (k : String)
    (hmem : k ∈ keys) (hnd : keys.Nodup) :
    dget (keys.map (fun a => (a, f a))) k = some (f k) := by
  induction keys using List.reverseRecOn with
  | nil => cases hmem
  | append_singleton t a ih =>
    rw [List.map_append, List.map_cons, List.map_nil, dget_append_single]
    rcases List.mem_append.mp hmem with h | h
    · have hnd' := List.nodup_append.mp hnd
      have hak : a ≠ k := by
        intro he
        subst he
        exact (hnd'.2.2 h (List.mem_singleton_self a)).elim
      rw [if_neg hak]
      exact ih h hnd'.1
    · rw [List.mem_singleton] at h
      subst h
      rw [if_pos rfl]

theorem detectHeaderScan_header_first (rest : List Row) :
    detectHeaderScan (excelHeaderRow :: rest) = some (1, 4, 5, 3) := by
  unfold detectHeaderScan
  have hpos : 0 < min 10 (excelHeaderRow :: rest).length := by
    simp [Nat.lt_min]
  obtain ⟨m, hm⟩ : ∃ m, min 10 (excelHeaderRow :: rest).length = m + 1 :=
    ⟨min 10 (excelHeaderRow :: rest).length - 1, (Nat.succ_pred_eq_of_pos hpos).symm⟩
  rw [hm]
  rfl

theorem detect_save (d : BilancoData) :
    detectDetailed (save_to_excel_rows d) = ⟨1, 4, 5, 3⟩ := by
  unfold detectDetailed
  rw [show save_to_excel_rows d = excelHeaderRow :: (build_excel_rows_from_data d).map rowOfXRow
        from rfl,
      detectHeaderScan_header_first]

/-- A written data row carries its key in column 4 with a nonblank key
string, so the detailed loop stores exactly that key with the row's
amount: the group-header branch is blocked by the nonblank key cell and the
label-resolution branch is never consulted. -/
theorem detailedStep_key_row (st : LoadState) (s g l k : String) (v : ℚ)
    (hk : ¬ pyStrip k = "") :
    detailedStep 4 5 3 st [Cell.cStr s, Cell.cStr g, Cell.cStr l, Cell.cStr k, Cell.cNum v] =
      (st.1 ++ [(k, v)], st.2) := by
  have hC : ¬ (Cell.cStr l ≠ Cell.cNone ∧
      pynormalize (pyStr (Cell.cStr l)) ∈ groupNamesNorm ∧
      isBlankCell (Cell.cNum v) = true ∧ isBlankCell (Cell.cStr k) = true) := by
    intro h
    have h4 := h.2.2.2
    simp only [isBlankCell] at h4
    exact hk (of_decide_eq_true h4)
  show (if (Cell.cStr l ≠ Cell.cNone ∧
      pynormalize (pyStr (Cell.cStr l)) ∈ groupNamesNorm ∧
      isBlankCell (Cell.cNum v) = true ∧ isBlankCell (Cell.cStr k) = true) then
      ((st.1, some (pynormalize (pyStr (Cell.cStr l)))) : LoadState)
    else (st.1 ++ [(k, v)], st.2)) = (st.1 ++ [(k, v)], st.2)
  rw [if_neg hC]

theorem foldl_detailedStep_keys (l : List XRow) (st : LoadState)
    (h : ∀ r ∈ l, ¬ pyStrip r.key = "") :
    (l.map rowOfXRow).foldl (detailedStep 4 5 3) st =
      (st.1 ++ l.map (fun r => (r.key, r.val)), st.2) := by
  induction l generalizing st with
  | nil => simp
  | cons r t ih =>
    simp only [List.map_cons, List.foldl_cons, rowOfXRow]
    rw [detailedStep_key_row st r.side r.grp r.label r.key r.val (h r (List.mem_cons_self _ _))]
    rw [ih _ (fun q hq => h q (List.mem_cons_of_mem _ hq))]
    simp

/-- No group's scoped dict binds the normalized alias spelling of
Ertelenmiş Vergi Varlığı: the exact schema label normalizes differently
(the dotless i becomes a space). -/
theorem groupMap_evv_none (g : String) :
    dget ((dget groupLabelMaps g).getD []) "ertelenmis vergi varligi" = none := by
  rcases h1 : dget groupLabelMaps g with _ | m
  · rfl
  · obtain ⟨p, hp, hv⟩ := dget_mem h1
    subst hv
    simp only [groupLabelMaps, allSections, aktifSections, pasifSections, List.map,
      List.append_eq, List.cons_append, List.nil_append, List.mem_cons,
      List.not_mem_nil, or_false] at hp
    rcases hp with rfl | rfl | rfl | rfl | rfl <;> decide

theorem resolve_evv_none (grp : Option String) :
    resolveLabel grp "ertelenmis vergi varligi" = none := by
  cases grp with
  | none => decide
  | some g =>
    show (match dget ((dget groupLabelMaps g).getD []) "ertelenmis vergi varligi" with
      | some k => some k
      | none => dget labelToKey "ertelenmis vergi varligi") = none
    rw [groupMap_evv_none g]
    decide

theorem kasa_sums :
    sum_donen_varliklar kasaScenario = 0 ∧ sum_duran_varliklar kasaScenario = 0 ∧
    sum_kv_yabanci_kaynaklar kasaScenario = 0 ∧ sum_uv_yabanci_kaynaklar kasaScenario = 0 ∧
    sum_oz_kaynaklar kasaScenario = 1000 := by
  refine ⟨?_, ?_, ?_, ?_, ?_⟩
  · show (0:ℚ) + 0 + 0 + 0 + 0 + 0 + 0 + 0 + 0 + 0 + 0 + 0 + 0 + 0 + 0 + 0 + 0 + 0 + 0 + 0 + 0 + 0 = 0
    norm_num
  · show (0:ℚ) + 0 + 0 + 0 + 0 + 0 + 0 + 0 + 0 + 0 + 0 + 0 + 0 + 0 + 0 + 0 + 0 + 0 + 0 + 0 + 0 + 0 - 0 = 0
    norm_num
  · show (0:ℚ) + 0 + 0 + 0 + 0 + 0 + 0 + 0 + 0 + 0 + 0 + 0 + 0 + 0 + 0 + 0 + 0 = 0
    norm_num
  · show (0:ℚ) + 0 + 0 + 0 + 0 + 0 + 0 + 0 + 0 + 0 + 0 + 0 + 0 + 0 + 0 = 0
    norm_num
  · show (0:ℚ) + 0 + 1000 + 0 + 0 + 0 + 0 + 0 + 0 + 0 + 0 + 0 + 0 + 0 + 0 + 0 + 0 + 0 + 0 + 0 = 1000
    norm_num

theorem validate_kasa_eval :
    validate kasaScenario =
      [Bulgu.dengesizlik 0 1000, Bulgu.adBos, Bulgu.likidite 0, Bulgu.bosBilanco] := by
  obtain ⟨hdv, hduran, hkv, huv, hoz⟩ := kasa_sums
  simp only [validate]
  rw [hdv, hduran, hkv, huv, hoz]
  rw [show ((0:ℚ) + 0 + 1000) = 1000 from by norm_num,
      show ((0:ℚ) + 0) = 0 from by norm_num,
      zero_div,
      zero_sub, abs_neg, abs_of_nonneg (show (0:ℚ) ≤ 1000 from by norm_num)]
  rw [if_pos (show (1000:ℚ) > 1 / 100 from by norm_num)]
  decide

theorem negEquity_sums :
    sum_donen_varliklar negEquityScenario = 0 ∧ sum_duran_varliklar negEquityScenario = 0 ∧
    sum_kv_yabanci_kaynaklar negEquityScenario = 0 ∧
    sum_uv_yabanci_kaynaklar negEquityScenario = 0 ∧
    sum_oz_kaynaklar negEquityScenario = -100 := by
  refine ⟨?_, ?_, ?_, ?_, ?_⟩
  · show (0:ℚ) + 0 + 0 + 0 + 0 + 0 + 0 + 0 + 0 + 0 + 0 + 0 + 0 + 0 + 0 + 0 + 0 + 0 + 0 + 0 + 0 + 0 = 0
    norm_num
  · show (0:ℚ) + 0 + 0 + 0 + 0 + 0 + 0 + 0 + 0 + 0 + 0 + 0 + 0 + 0 + 0 + 0 + 0 + 0 + 0 + 0 + 0 + 0 - 0 = 0
    norm_num
  · show (0:ℚ) + 0 + 0 + 0 + 0 + 0 + 0 + 0 + 0 + 0 + 0 + 0 + 0 + 0 + 0 + 0 + 0 = 0
    norm_num
  · show (0:ℚ) + 0 + 0 + 0 + 0 + 0 + 0 + 0 + 0 + 0 + 0 + 0 + 0 + 0 + 0 = 0
    norm_num
  · show (0:ℚ) + 0 + -100 + 0 + 0 + 0 + 0 + 0 + 0 + 0 + 0 + 0 + 0 + 0 + 0 + 0 + 0 + 0 + 0 + 0 = -100
    norm_num

theorem validate_negEquity_eval :
    validate negEquityScenario =
      [Bulgu.dengesizlik 0 (-100), Bulgu.adBos, Bulgu.negatif "odenmisSermaye" (-100),
       Bulgu.likidite 0, Bulgu.ozNegatif, Bulgu.bosBilanco] := by
  obtain ⟨hdv, hduran, hkv, huv, hoz⟩ := negEquity_sums
  simp only [validate]
  rw [hdv, hduran, hkv, huv, hoz]
  rw [show ((0:ℚ) + 0 + -100) = -100 from by norm_num,
      show ((0:ℚ) + 0) = 0 from by norm_num,
      zero_div,
      show ((0:ℚ) - -100) = 100 from by norm_num,
      abs_of_nonneg (show (0:ℚ) ≤ 100 from by norm_num)]
  rw [if_pos (show (100:ℚ) > 1 / 100 from by norm_num)]
  decide

/-! ### Claim theorems -/

/-- Claim C1. The balanced-sheet scenario of the spec fails on the code: for
the entries kasa 1000 and odenmisSermaye 1000, sum_donen_varliklar returns
0 rather than 1000 because DONEN_KEYS (derived from SECTION_FIELDS) does
not contain the key kasa, while sum_oz_kaynaklar does return 1000; validate
therefore emits a Critical balance-mismatch finding (aktif 0 against pasif
1000), the empty-entity-name Warning, a liquidity Warning with ratio 0, and
the empty-sheet Warning. This evaluates the code at the claim's input: the
document builder files kasa under its current-assets section next to the
toplam computed by these very sums, so the key-list omission contradicts
the code's own document layout. -/
theorem claim_C1_kasa_scenario_eval :
    sum_donen_varliklar kasaScenario = 0 ∧
    sum_oz_kaynaklar kasaScenario = 1000 ∧
    validate kasaScenario =
      [Bulgu.dengesizlik 0 1000, Bulgu.adBos, Bulgu.likidite 0, Bulgu.bosBilanco] ∧
    (validate kasaScenario).map Bulgu.tip = ["kritik", "uyari", "uyari", "uyari"] := by
  refine ⟨kasa_sums.1, kasa_sums.2.2.2.2, validate_kasa_eval, ?_⟩
  rw [validate_kasa_eval]
  rfl

/-- Claim C2. Detected header columns are never the ones used: on the
three-column sheet whose header row holds anahtar in column 1 and tutar in
column 2, the scan does detect columns (1, 2, 3), but detectDetailed
returns the fixed guesses key=4, value=5, label=3 regardless (the source's
if not is_simple_format fallback is always entered on this branch), so
load_from_excel reads empty cells, fails to resolve the row, and imports
nothing, where the claimed behavior would import odenmisSermaye 7. -/
theorem claim_C2_detected_columns_discarded :
    detectHeaderScan shiftedHeaderSheet = some (1, 1, 2, 3) ∧
    detectDetailed shiftedHeaderSheet = ⟨1, 4, 5, 3⟩ ∧
    load_from_excel_rows shiftedHeaderSheet = [] := by
  refine ⟨by decide, by decide, by decide⟩

/-- Claim C3 counterexample. For odenmisSermaye -100 with all else absent,
validate returns six findings, not the three the claim states: the balance
check (0 against -100), the empty entity name and the liquidity check also
fire. -/
theorem claim_C3_counterexample_six_findings :
    (validate negEquityScenario).length = 6 ∧ (validate negEquityScenario).length ≠ 3 := by
  rw [validate_negEquity_eval]
  refine ⟨rfl, by decide⟩

/-- Claim C3 amended. For odenmisSermaye -100 with all else absent or 0,
validate returns exactly six findings in the fixed check order of §4.3: the
Critical balance mismatch, the empty-entity-name Warning, the Warning for
the negative line item, the low-liquidity Warning, the Critical
negative-equity finding, and the empty-sheet Warning — the three findings
the claim names do occur, in that relative order, alongside the other
three. -/
theorem claim_C3_amended_findings :
    validate negEquityScenario =
      [Bulgu.dengesizlik 0 (-100), Bulgu.adBos, Bulgu.negatif "odenmisSermaye" (-100),
       Bulgu.likidite 0, Bulgu.ozNegatif, Bulgu.bosBilanco] ∧
    (validate negEquityScenario).map Bulgu.tip =
      ["kritik", "uyari", "uyari", "uyari", "kritik", "uyari"] := by
  refine ⟨validate_negEquity_eval, ?_⟩
  rw [validate_negEquity_eval]
  rfl

/-- Claim C4. Round-trip: writing any entry mapping with
build_excel_rows_from_data / save_to_excel and re-reading the sheet with
load_from_excel recovers every non-subtotal schema key's numeric value
exactly (amounts are exact rationals here, so exact recovery subsumes the
1e-9 tolerance); the written labels are schema-exact, and every written row
carries its key, so no alias resolution is involved. -/
theorem claim_C4_excel_roundtrip (d : BilancoData) (k : String) (hk : k ∈ allEntryKeys) :
    dget (load_from_excel_rows (save_to_excel_rows d)) k = some (dgetD d.items k 0) := by
  have hmax : ¬ maxCol (save_to_excel_rows d) ≤ 2 := by
    have h5 : (5 : ℕ) ≤ maxCol (save_to_excel_rows d) := by
      show (5 : ℕ) ≤ max 5 (maxCol ((build_excel_rows_from_data d).map rowOfXRow))
      exact Nat.le_max_left _ _
    omega
  have hkeys : ∀ r ∈ build_excel_rows_from_data d, ¬ pyStrip r.key = "" := by
    intro r hr
    have hkm : r.key ∈ (build_excel_rows_from_data d).map XRow.key :=
      List.mem_map_of_mem _ hr
    rw [show (build_excel_rows_from_data d).map XRow.key = allEntryKeys from rfl] at hkm
    have hall : ∀ s ∈ allEntryKeys, ¬ pyStrip s = "" := by decide
    exact hall _ hkm
  unfold load_from_excel_rows
  rw [if_neg hmax, detect_save]
  rw [show (save_to_excel_rows d).drop (Detect.mk 1 4 5 3).hdr =
        (build_excel_rows_from_data d).map rowOfXRow from rfl]
  rw [foldl_detailedStep_keys _ _ hkeys]
  rw [show ((([] : List (String × ℚ)) ++
        (build_excel_rows_from_data d).map (fun r => (r.key, r.val)), (none : Option String)).1 :
        List (String × ℚ)) =
      allEntryKeys.map (fun a => (a, dgetD d.items a 0)) from rfl]
  exact dget_keysMap allEntryKeys (fun a => dgetD d.items a 0) k hk (by decide)

/-- Claim C4 witness: a concrete sheet round-trips the stoklar entry 42. -/
theorem claim_C4_excel_roundtrip_witness :
    "stoklar" ∈ allEntryKeys ∧
    dget (load_from_excel_rows (save_to_excel_rows
        ⟨[("stoklar", 42)], "Acme", "2024-01-01"⟩)) "stoklar" = some 42 :=
  ⟨by decide,
   claim_C4_excel_roundtrip ⟨[("stoklar", 42)], "Acme", "2024-01-01"⟩ "stoklar" (by decide)⟩

/-- Claim C5 counterexample. The claim's universal form fails: on a Simple
sheet whose two Diğer Borçlar rows each follow a group-header row for a
different group — here Dönen Varlıklar and Duran Varlıklar, two distinct
recognised groups whose scoped dicts do not define that label — both rows
fall back to the global normalized-label dict, whose last-wins binding is
digerBorclarUV, so both amounts are assigned to that single key and
digerBorclarKV never appears in the output. -/
theorem claim_C5_counterexample_global_collision :
    load_from_excel_rows donenDuranDigerSheet =
      [("digerBorclarUV", (11 : ℚ)), ("digerBorclarUV", 22)] ∧
    dget (load_from_excel_rows donenDuranDigerSheet) "digerBorclarKV" = none ∧
    dget (load_from_excel_rows donenDuranDigerSheet) "digerBorclarUV" = some 22 ∧
    pynormalize "Dönen Varlıklar" ∈ groupNamesNorm ∧
    pynormalize "Duran Varlıklar" ∈ groupNamesNorm ∧
    pynormalize "Dönen Varlıklar" ≠ pynormalize "Duran Varlıklar" := by
  refine ⟨rfl, by decide, by decide, by decide, by decide, by decide⟩

/-- Claim C5 as amended. On the sheet whose rows place Diğer Borçlar once
under the Kısa Vadeli Yükümlülükler group header and once under the Uzun
Vadeli Yükümlülükler group header — the two groups that both define that
label, the disambiguation the group scoping exists for — load_from_excel
resolves the first occurrence to digerBorclarKV with its amount and the
second to digerBorclarUV with its amount, for arbitrary amounts: two
distinct canonical keys, one per group, never a single shared key. Under a
group header whose group does not define the label, resolution instead
falls back to the global dict's single last-wins binding (the
counterexample above). -/
theorem claim_C5_group_scoped_resolution (v1 v2 : ℚ) :
    load_from_excel_rows (digerBorclarSheet v1 v2) =
      [("digerBorclarKV", v1), ("digerBorclarUV", v2)] ∧
    ("digerBorclarKV" : String) ≠ "digerBorclarUV" :=
  ⟨rfl, by decide⟩

/-- Claim C6. In every document built by build_mongo_like_document the
validation status is uyarilarla exactly when the findings list is
non-empty and basarili exactly when it is empty; the quantification over
arbitrary findings lists covers Critical-containing and Warning-only lists
alike, so severity never influences the label. -/
theorem claim_C6_validation_status_label (d : BilancoData) (errors : List Bulgu) :
    ((build_mongo_like_document d errors).durumu = "uyarilarla" ↔ errors ≠ []) ∧
    ((build_mongo_like_document d errors).durumu = "basarili" ↔ errors = []) := by
  cases errors with
  | nil => refine ⟨?_, ?_⟩ <;> simp [build_mongo_like_document]
  | cons e t => refine ⟨?_, ?_⟩ <;> simp [build_mongo_like_document]

/-- Claim C7. For every entry mapping, the liquidity findings of validate
are exactly one finding carrying the ratio sum_donen_varliklar divided by
sum_kv_yabanci_kaynaklar when the latter is nonzero and by 1 otherwise,
when that ratio is strictly below 1, and no liquidity finding otherwise;
the division is total by the guard, and the warning fires if and only if
the ratio is strictly less than 1. -/
theorem claim_C7_liquidity_warning_iff (d : BilancoData) :
    (validate d).filterMap likOf =
      (if sum_donen_varliklar d /
            (if sum_kv_yabanci_kaynaklar d ≠ 0 then sum_kv_yabanci_kaynaklar d else 1) < 1
        then [sum_donen_varliklar d /
            (if sum_kv_yabanci_kaynaklar d ≠ 0 then sum_kv_yabanci_kaynaklar d else 1)]
        else []) := by
  have hsingle : ∀ (c : Prop) (inst : Decidable c) (b : Bulgu), likOf b = none →
      (if c then [b] else []).filterMap likOf = [] := by
    intro c inst b hb
    split <;> simp [hb]
  have hneg : ∀ l : List (String × ℚ),
      (l.filterMap (fun kv =>
        if kv.1 = "isletmeAdi" ∨ kv.1 = "bilancoTarihi" ∨ kv.1 = "birikmiAmort" then none
        else if kv.2 < 0 then some (Bulgu.negatif kv.1 kv.2) else none)).filterMap likOf = [] := by
    intro l
    rw [List.filterMap_filterMap]
    refine List.filterMap_eq_nil_iff.mpr ?_
    intro kv _
    split
    · rfl
    · split <;> rfl
  simp only [validate, List.filterMap_append]
  rw [hsingle _ _ (Bulgu.dengesizlik _ _) rfl, hsingle _ _ Bulgu.adBos rfl,
      hsingle _ _ Bulgu.ozNegatif rfl, hsingle _ _ Bulgu.bosBilanco rfl, hneg]
  have hlik : ∀ (c : Prop) (inst : Decidable c) (r : ℚ),
      (if c then [Bulgu.likidite r] else []).filterMap likOf = if c then [r] else [] := by
    intro c inst r
    split <;> simp [likOf]
  rw [hlik]
  simp

/-- Claim C8. On every Simple (at most two columns) sheet, the first row of
the primary sheet is never imported: the result equals the simple scan of
the remaining rows, and replacing the first row by any other row respecting
the two-column bound leaves the result unchanged — even when that first row
holds a valid label/amount pair. -/
theorem claim_C8_simple_first_row_skipped (r1 r1' : Row) (rest : List Row)
    (h1 : maxCol (r1 :: rest) ≤ 2) (h2 : maxCol (r1' :: rest) ≤ 2) :
    load_from_excel_rows (r1 :: rest) = (rest.foldl simpleStep ([], none)).1 ∧
    load_from_excel_rows (r1 :: rest) = load_from_excel_rows (r1' :: rest) := by
  constructor
  · unfold load_from_excel_rows
    rw [if_pos h1]
    rfl
  · unfold load_from_excel_rows
    rw [if_pos h1, if_pos h2]
    rfl

/-- Claim C8 witness: a first row holding the valid pair Nakit ve Nakit
Benzerleri / 5 is discarded exactly like an arbitrary header row. -/
theorem claim_C8_simple_first_row_skipped_witness :
    maxCol ([Cell.cStr "Nakit ve Nakit Benzerleri", Cell.cNum 5] ::
        [[Cell.cStr "Stoklar", Cell.cNum 3]]) ≤ 2 ∧
    maxCol ([Cell.cStr "Etiket", Cell.cStr "Tutar"] ::
        [[Cell.cStr "Stoklar", Cell.cNum 3]]) ≤ 2 ∧
    (load_from_excel_rows ([Cell.cStr "Nakit ve Nakit Benzerleri", Cell.cNum 5] ::
        [[Cell.cStr "Stoklar", Cell.cNum 3]]) =
      (([[Cell.cStr "Stoklar", Cell.cNum 3]] : List Row).foldl simpleStep ([], none)).1 ∧
     load_from_excel_rows ([Cell.cStr "Nakit ve Nakit Benzerleri", Cell.cNum 5] ::
        [[Cell.cStr "Stoklar", Cell.cNum 3]]) =
      load_from_excel_rows ([Cell.cStr "Etiket", Cell.cStr "Tutar"] ::
        [[Cell.cStr "Stoklar", Cell.cNum 3]])) :=
  ⟨by decide, by decide,
   claim_C8_simple_first_row_skipped _ _ _ (by decide) (by decide)⟩

/-- Claim C9. In the Detailed path, whenever the key cell of a row is a
nonblank string, the step stores that string verbatim as the entry key with
the coerced amount cell, regardless of the label and of the schema — no
lookup of the registry, the group maps or the alias table occurs, so keys
that name no LineItem flow into the output unchecked. -/
theorem claim_C9_key_cell_verbatim (st : LoadState) (row : Row) (k : String)
    (h1 : getCell row 4 = Cell.cStr k) (h2 : ¬ pyStrip k = "") :
    detailedStep 4 5 3 st row = (dput st.1 k (coerceVal (getCell row 5)), st.2) := by
  have hrow : ¬ row = [] := by
    intro h
    rw [h] at h1
    exact Cell.noConfusion (show Cell.cNone = Cell.cStr k from h1)
  have hC : ¬ (getCell row 3 ≠ Cell.cNone ∧
      pynormalize (pyStr (getCell row 3)) ∈ groupNamesNorm ∧
      isBlankCell (getCell row 5) = true ∧ isBlankCell (Cell.cStr k) = true) := by
    intro h
    have h4 := h.2.2.2
    simp only [isBlankCell] at h4
    exact h2 (of_decide_eq_true h4)
  have hP : ¬ (Cell.cStr k = Cell.cNone ∧
      (getCell row 3 = Cell.cNone ∨ isBlankCell (getCell row 5) = true)) := by
    intro h
    exact Cell.noConfusion h.1
  simp only [detailedStep, h1, if_neg hrow, if_neg hC, if_neg hP]
  rfl

/-- Claim C9 witness: the non-schema key tamamenBilinmeyenAnahtar is stored
verbatim with its amount. -/
theorem claim_C9_key_cell_verbatim_witness :
    getCell [Cell.cNone, Cell.cNone, Cell.cNone, Cell.cStr "tamamenBilinmeyenAnahtar",
        Cell.cNum 7] 4 = Cell.cStr "tamamenBilinmeyenAnahtar" ∧
    ¬ pyStrip "tamamenBilinmeyenAnahtar" = "" ∧
    detailedStep 4 5 3 ([], none)
        [Cell.cNone, Cell.cNone, Cell.cNone, Cell.cStr "tamamenBilinmeyenAnahtar", Cell.cNum 7] =
      ([("tamamenBilinmeyenAnahtar", 7)], none) ∧
    "tamamenBilinmeyenAnahtar" ∉ allEntryKeys :=
  ⟨rfl, by decide,
   claim_C9_key_cell_verbatim ([], none)
     [Cell.cNone, Cell.cNone, Cell.cNone, Cell.cStr "tamamenBilinmeyenAnahtar", Cell.cNum 7]
     "tamamenBilinmeyenAnahtar" rfl (by decide),
   by decide⟩

/-- Claim C10. The alias table is consulted only on the Detailed path: for
the alias-only label Ertelenmis Vergi Varligi (registered in the alias
table, absent from the exact normalized label dict), the Simple-path step
adds no entry under any group context, while the Detailed-path step on a
key-less row with that label resolves through the alias table to
ertelenmisVergiVarligiDuran and stores the amount. -/
theorem claim_C10_alias_only_detailed (st : List (String × ℚ)) (grp : Option String) (v : ℚ) :
    simpleStep (st, grp) [Cell.cStr "Ertelenmis Vergi Varligi", Cell.cNum v] = (st, grp) ∧
    detailedStep 4 5 3 (st, grp)
        [Cell.cNone, Cell.cNone, Cell.cStr "Ertelenmis Vergi Varligi", Cell.cNone, Cell.cNum v] =
      (st ++ [("ertelenmisVergiVarligiDuran", v)], grp) ∧
    dget aliasToKey "ertelenmis vergi varligi" = some "ertelenmisVergiVarligiDuran" ∧
    dget labelToKey "ertelenmis vergi varligi" = none := by
  refine ⟨?_, ?_, by decide, by decide⟩
  · show (resolveLabel grp "ertelenmis vergi varligi").elim ((st, grp) : LoadState)
        (fun k => (dput st k (coerceVal (Cell.cNum v)), grp)) = (st, grp)
    rw [resolve_evv_none]
    rfl
  · show ((resolveLabel grp "ertelenmis vergi varligi").orElse
        (fun _ => dget aliasToKey "ertelenmis vergi varligi")).elim ((st, grp) : LoadState)
        (fun k => (dput st k (coerceVal (Cell.cNum v)), grp)) =
      (st ++ [("ertelenmisVergiVarligiDuran", v)], grp)
    rw [resolve_evv_none]
    rfl
